import Mathlib

/-!
Verification of the DataHaven end-to-end storage workflow script.

The script drives an external chain client and a storage-provider (MSP)
backend through bucket creation, file upload, two polling loops, download
and byte-level integrity verification.  We embed the script's own logic
shallowly: the external collaborators (chain RPC, MSP HTTP client, wallet,
filesystem) are modelled as explicit inputs (functions from attempt index
to response, record lookups, step outcomes), while every branch, error
message, attempt cap and delay constant of the script itself is translated
directly from the source.
-/

namespace DataHaven

/-- An error object caught in a polling loop: the script inspects
the optional numeric status field and the optional error string of the
body of a failed MSP-backend request. -/
structure QueryError where
  status : Option Nat
  bodyError : Option String
deriving DecidableEq, Repr

/-- Errors raised by the script.  The source throws JavaScript Error
objects built from message strings; a non-404 failure of a backend query
is re-thrown unchanged, which we keep distinguishable as a second
constructor. -/
inductive RunError where
  | msg (message : String)
  | query (e : QueryError)
deriving DecidableEq, Repr

/-- The MSP backend's view of a file, as returned by getFileInfo: the
script only ever inspects the status string. -/
structure FileInfo where
  status : String
deriving DecidableEq, Repr

/-- Response of one getFileInfo call: either a file record or a thrown
error. -/
inductive BackendResp where
  | ok (info : FileInfo)
  | err (e : QueryError)
deriving DecidableEq, Repr

/-- Outcome of a polling loop, together with the number of backend/chain
queries performed and the total milliseconds spent sleeping between
attempts. -/
structure LoopOutcome (α : Type) where
  result : Except RunError α
  attempts : Nat
  sleptMs : Nat

/-- An on-chain storage-request record, as read back by
polkadotApi.query.fileSystem.storageRequests: the script inspects the
bucket id, the fingerprint, and the msp field (provider id paired with
its confirmation boolean, absent while no provider is assigned). -/
structure StorageRequestData where
  bucketId : String
  fingerprint : String
  msp : Option (String × Bool)
deriving DecidableEq, Repr

/-! ## verifyDownload (src/operations/fileOperations.ts lines 167-172)

The local filesystem is modelled as a map from path to byte list; reading
a file returns its full contents, and Buffer.equals is byte-list
equality. -/

/-- Byte-for-byte comparison of the original and the downloaded file,
from the source: read both files fully, compare buffers, return the
boolean. -/
def verifyDownload (fs : String → List Nat) (originalPath downloadedPath : String) : Bool :=
  let originalBuffer := fs originalPath
  let downloadedBuffer := fs downloadedPath
  originalBuffer == downloadedBuffer

/-! ## Session state of the MSP service module (unnamed source file,
mspService)

The module holds a single mutable binding, sessionToken, initially
undefined; sessionProvider reads it; authenticateUser performs the SIWE
sign-in, stores the returned token, then fetches the profile.  Each
operation is modelled as an explicit state transformer on the token. -/

/-- The module-level session state: the optional session token. -/
structure MspSession where
  sessionToken : Option String
deriving DecidableEq, Repr

/-- Initial module state: no session token yet. -/
def initialSession : MspSession := ⟨none⟩

/-- From the source: returns a token and user address if authenticated,
otherwise undefined. -/
def sessionProvider (address : String) (s : MspSession) : Option (String × String) :=
  match s.sessionToken with
  | some token => some (token, address)
  | none => none

/-- getMspInfo only performs a read request; the session state is
untouched.  The info result itself comes from the backend. -/
def getMspInfo (infoResult : Except RunError (String × Option (List String)))
    (s : MspSession) : Except RunError (String × Option (List String)) × MspSession :=
  (infoResult, s)

/-- getMspHealth only performs a read request; the session state is
untouched. -/
def getMspHealth (healthResult : Except RunError String)
    (s : MspSession) : Except RunError String × MspSession :=
  (healthResult, s)

/-- getValueProps: fails when the MSP offers no value propositions,
otherwise selects the first one; the session state is untouched. -/
def getValueProps (valueProps : List String) (s : MspSession) :
    Except RunError String × MspSession :=
  if valueProps.length = 0 then
    (.error (.msg "No value propositions available from MSP"), s)
  else
    (.ok (valueProps.headI), s)

/-- authenticateUser, from the source: run the SIWE sign-in (which can
fail, leaving the state unchanged), store the returned token in the
module state, then fetch the profile (which can also fail, but only after
the token has already been stored). -/
def authenticateUser (siweResult : Except RunError String)
    (profileResult : Except RunError String) (s : MspSession) :
    Except RunError String × MspSession :=
  match siweResult with
  | .error e => (.error e, s)
  | .ok token =>
    let s' : MspSession := ⟨some token⟩
    match profileResult with
    | .error e => (.error e, s')
    | .ok profile => (.ok profile, s')

/-! ## waitForMSPConfirmOnChain (src/operations/fileOperations.ts lines 174-200)

The chain is modelled as the sequence of storage-request query results
it returns, one per attempt.  maxAttempts = 10, delayMs = 2000.  The
loop sleeps after every non-returning iteration, so a full timeout has
slept 10 * 2000 ms. -/

/-- Error message thrown when the storage request has disappeared from
chain (string interpolation from the source). -/
def goneMsg (fileKey : String) : String :=
  "StorageRequest for " ++ fileKey ++ " no longer exists on-chain."

/-- Timeout message thrown after the attempt budget, with
maxAttempts * delayMs = 10 * 2000 = 20000 interpolated. -/
def mspTimeoutMsg (fileKey : String) : String :=
  "FileKey " ++ fileKey ++ " not ready for download after waiting 20000 ms"

/-- The MSP-confirmation flag the script computes from a chain record:
the second component of the msp tuple when a provider is assigned,
false otherwise. -/
def mspConfirmedOf (data : StorageRequestData) : Bool :=
  match data.msp with
  | some mspTuple => mspTuple.2
  | none => false

/-- One record read of the confirmation loop: the request is present and
its confirmation flag is still false, so the loop keeps polling. -/
def presentUnconfirmed (req : Option StorageRequestData) : Bool :=
  match req with
  | some data => !(mspConfirmedOf data)
  | none => false

/-- The body of waitForMSPConfirmOnChain: i is the 0-based attempt
index, slept the milliseconds slept so far, and the fuel is the number
of loop iterations left out of maxAttempts. -/
def mspConfirmLoop (chain : Nat → Option StorageRequestData) (fileKey : String) :
    Nat → Nat → Nat → LoopOutcome Unit
  | i, slept, 0 => ⟨.error (.msg (mspTimeoutMsg fileKey)), i, slept⟩
  | i, slept, fuel + 1 =>
    match chain i with
    | none => ⟨.error (.msg (goneMsg fileKey)), i + 1, slept⟩
    | some data =>
      if mspConfirmedOf data then ⟨.ok (), i + 1, slept⟩
      else mspConfirmLoop chain fileKey (i + 1) (slept + 2000) fuel

/-- waitForMSPConfirmOnChain, from the source: 10 attempts at a fixed
2000 ms interval. -/
def waitForMSPConfirmOnChain (chain : Nat → Option StorageRequestData)
    (fileKey : String) : LoopOutcome Unit :=
  mspConfirmLoop chain fileKey 0 0 10

/-! ## waitForBackendFileReady (src/operations/fileOperations.ts lines 202-237)

The backend is modelled as the sequence of getFileInfo responses, one
per attempt.  maxAttempts = 144, delayMs = 5000.  A status string is
dispatched exactly as the if/else chain of the source does; a thrown
query error is retried when it looks like a 404 / record-not-found and
re-thrown otherwise.  (The source's own terminal-status throws are
caught by the surrounding try/catch, do not match the 404 test — a
fresh Error has neither a status field nor a body — and are re-thrown
unchanged, so they propagate exactly as modelled here.) -/

/-- The body of waitForBackendFileReady: i is the 0-based attempt index,
slept the milliseconds slept so far, and the fuel is the number of loop
iterations left out of maxAttempts. -/
def fileReadyLoop (backend : Nat → BackendResp) (delayMs : Nat) :
    Nat → Nat → Nat → LoopOutcome FileInfo
  | i, slept, 0 =>
    ⟨.error (.msg "Timed out waiting for MSP backend to mark file as ready"), i, slept⟩
  | i, slept, fuel + 1 =>
    match backend i with
    | .ok fileInfo =>
      if fileInfo.status = "ready" then ⟨.ok fileInfo, i + 1, slept⟩
      else if fileInfo.status = "revoked" then
        ⟨.error (.msg "File upload was cancelled by user"), i + 1, slept⟩
      else if fileInfo.status = "rejected" then
        ⟨.error (.msg "File upload was rejected by MSP"), i + 1, slept⟩
      else if fileInfo.status = "expired" then
        ⟨.error (.msg "Storage request expired: the required number of BSP replicas was not achieved within the deadline"), i + 1, slept⟩
      else fileReadyLoop backend delayMs (i + 1) (slept + delayMs) fuel
    | .err e =>
      if e.status = some 404 ∨ e.bodyError = some "Not found: Record" then
        fileReadyLoop backend delayMs (i + 1) (slept + delayMs) fuel
      else ⟨.error (.query e), i + 1, slept⟩

/-- waitForBackendFileReady, from the source: 144 attempts at a fixed
5000 ms interval. -/
def waitForBackendFileReady (backend : Nat → BackendResp) : LoopOutcome FileInfo :=
  fileReadyLoop backend 5000 0 0 144

/-- A backend response on which the loop neither returns nor throws but
sleeps and polls again: a record whose status is none of ready, revoked,
rejected, expired, or a thrown error matching the 404 / record-not-found
test. -/
def continues (r : BackendResp) : Bool :=
  match r with
  | .ok fileInfo =>
    if fileInfo.status = "ready" then false
    else if fileInfo.status = "revoked" then false
    else if fileInfo.status = "rejected" then false
    else if fileInfo.status = "expired" then false
    else true
  | .err e =>
    if e.status = some 404 ∨ e.bodyError = some "Not found: Record" then true else false

/-- A backend response that is an actual record with a transient status
(e.g. pending): not one of the four statuses the loop acts on. -/
def transientOk (r : BackendResp) : Bool :=
  match r with
  | .ok fileInfo =>
    if fileInfo.status = "ready" then false
    else if fileInfo.status = "revoked" then false
    else if fileInfo.status = "rejected" then false
    else if fileInfo.status = "expired" then false
    else true
  | .err _ => false

/-- The distinct message the loop throws for each terminal-negative
backend status, read off the three throw sites of the source. -/
def terminalNegativeMsg (status : String) : String :=
  if status = "revoked" then "File upload was cancelled by user"
  else if status = "rejected" then "File upload was rejected by MSP"
  else "Storage request expired: the required number of BSP replicas was not achieved within the deadline"

/-! ## uploadFile (src/operations/fileOperations.ts lines 11-125)

The external collaborators are modelled as an environment: the
FileManager's size and fingerprint, the MSP info response, the outcome
of the storage-request transaction, the deterministic file-key
computation, the chain's storage-request state at verification time, the
authentication outcome and the MSP upload receipt status. -/

/-- JavaScript String.prototype.split with a non-empty string separator,
over character lists: scan left to right; whenever the separator is a
prefix of the remaining input, close the current segment and continue
after it.  The fuel argument is instantiated with the input length, which
bounds the recursion since every step consumes at least one character. -/
def jsSplitAux (sep : List Char) : Nat → List Char → List Char → List (List Char)
  | _, [], acc => [acc.reverse]
  | 0, s, acc => [acc.reverse ++ s]
  | fuel + 1, c :: rest, acc =>
    if sep.isPrefixOf (c :: rest) then
      acc.reverse :: jsSplitAux sep fuel (List.drop sep.length (c :: rest)) []
    else jsSplitAux sep fuel rest (c :: acc)

/-- JavaScript s.split(sep) for a non-empty separator, on strings.  The
result is never the empty list. -/
def jsSplit (s sep : String) : List String :=
  (jsSplitAux sep.data s.data.length s.data []).map (fun cs => String.mk cs)

/-- extractPeerIDs, from the source: for each multiaddress, split on the
peer-segment separator and take the last piece (JavaScript split
followed by pop), then drop empty strings (the truthiness filter).
Note that an address containing no such separator survives the split
whole and is kept. -/
def extractPeerIDs (multiaddresses : List String) : List String :=
  (multiaddresses.map (fun addr => (jsSplit addr "/p2p/").getLastD "")).filter
    (fun id => id ≠ "")

/-- Modelled from the spec: an address carries a peer-id segment when
the peer separator occurs in it, i.e. splitting on the separator yields
more than one piece.  Used only to state what the spec says the peer
extraction should key on. -/
def hasP2PSegment (addr : String) : Bool :=
  (jsSplit addr "/p2p/").length ≥ 2

/-- Environment of one uploadFile call: results of the external calls it
performs, in source order. -/
structure UploadEnv where
  fileSize : Nat
  fingerprint : String
  mspId : String
  multiaddresses : Option (List String)
  txHash : Option String
  receiptStatus : String
  accountAddress : String
  computeFileKey : String → String → String → String
  storageRequests : String → Option StorageRequestData
  authResult : Except RunError String
  uploadStatus : String

/-- Value returned by a successful uploadFile.  The source returns the
file key and the upload receipt; the two Booleans record the
informational comparisons the source prints to the console after
re-reading the storage request (they do not influence control flow). -/
structure UploadResult where
  fileKey : String
  uploadStatus : String
  bucketIdMatches : Bool
  fingerprintMatches : Bool
deriving DecidableEq, Repr

/-- uploadFile, from the source: check the multiaddresses, extract peer
ids, issue the storage request, check the transaction hash and receipt,
compute the file key, re-read the storage request from chain (failing
if absent, logging the bucket-id and fingerprint comparisons),
authenticate and upload, checking the receipt status. -/
def uploadFile (env : UploadEnv) (bucketId fileName : String) :
    Except RunError UploadResult :=
  match env.multiaddresses with
  | none => .error (.msg "MSP multiaddresses are missing")
  | some multiaddresses =>
    if multiaddresses.length = 0 then .error (.msg "MSP multiaddresses are missing")
    else
      let peerIds := extractPeerIDs multiaddresses
      if peerIds.length = 0 then
        .error (.msg "MSP multiaddresses had no /p2p/<peerId> segment")
      else
        match env.txHash with
        | none => .error (.msg "issueStorageRequest() did not return a transaction hash")
        | some txHash =>
          if env.receiptStatus ≠ "success" then
            .error (.msg ("Storage request failed: " ++ txHash))
          else
            let fileKey := env.computeFileKey env.accountAddress bucketId fileName
            match env.storageRequests fileKey with
            | none => .error (.msg "Storage request not found on chain")
            | some storageRequestData =>
              let bucketIdMatches := storageRequestData.bucketId == bucketId
              let fingerprintMatches := storageRequestData.fingerprint == env.fingerprint
              match env.authResult with
              | .error e => .error e
              | .ok _authProfile =>
                if env.uploadStatus ≠ "upload_successful" then
                  .error (.msg "File upload to MSP failed")
                else .ok ⟨fileKey, env.uploadStatus, bucketIdMatches, fingerprintMatches⟩

/-! ## Orchestrator run() (unnamed source file, index)

Each step of the script is tagged; the environment gives the outcome of
each external call, with the data that flows forward (bucket id, file
key) passed explicitly.  run executes the steps strictly in source
order, recording each step as it starts and stopping at the first
error. -/

/-- The steps of the end-to-end script, in source order. -/
inductive Step where
  | initWasm
  | healthCheck
  | createBucket
  | verifyBucket
  | waitBackendBucket
  | upload
  | waitMSPConfirm
  | waitBackendFile
  | download
  | verifyIntegrity
  | disconnect
deriving DecidableEq, Repr

/-- Environment of one run of the orchestrator: the outcome of every
awaited step, as functions of the data flowing into it. -/
structure RunEnv where
  initWasmResult : Except RunError Unit
  healthResult : Except RunError String
  createBucketResult : Except RunError (String × String)
  verifyBucketResult : String → Except RunError String
  waitBucketResult : String → Except RunError Unit
  uploadResult : String → Except RunError (String × String)
  mspConfirmResult : String → Except RunError Unit
  backendFileResult : String → String → Except RunError FileInfo
  downloadResult : String → Except RunError (String × Nat)
  verifyResult : String → String → Except RunError Bool
  disconnectResult : Except RunError Unit

/-- The full sequence of steps the script runs on the success path. -/
def fullTrace : List Step :=
  [.initWasm, .healthCheck, .createBucket, .verifyBucket, .waitBackendBucket,
   .upload, .waitMSPConfirm, .waitBackendFile, .download, .verifyIntegrity,
   .disconnect]

/-- run, from the source: awaits each step in order, threading the
bucket id and file key forward (the source and destination file paths
are fixed constants in the script); a step's failure stops the run
before any later step starts.  Returns the list of steps that were
started and the first error, if any. -/
def run (env : RunEnv) : List Step × Option RunError :=
  match env.initWasmResult with
  | .error e => ([.initWasm], some e)
  | .ok _ =>
  match env.healthResult with
  | .error e => ([.initWasm, .healthCheck], some e)
  | .ok _mspHealth =>
  match env.createBucketResult with
  | .error e => ([.initWasm, .healthCheck, .createBucket], some e)
  | .ok (bucketId, _txReceipt) =>
  match env.verifyBucketResult bucketId with
  | .error e => ([.initWasm, .healthCheck, .createBucket, .verifyBucket], some e)
  | .ok _bucketData =>
  match env.waitBucketResult bucketId with
  | .error e =>
    ([.initWasm, .healthCheck, .createBucket, .verifyBucket, .waitBackendBucket], some e)
  | .ok _ =>
  match env.uploadResult bucketId with
  | .error e =>
    ([.initWasm, .healthCheck, .createBucket, .verifyBucket, .waitBackendBucket,
      .upload], some e)
  | .ok (fileKey, _uploadStatus) =>
  match env.mspConfirmResult fileKey with
  | .error e =>
    ([.initWasm, .healthCheck, .createBucket, .verifyBucket, .waitBackendBucket,
      .upload, .waitMSPConfirm], some e)
  | .ok _ =>
  match env.backendFileResult bucketId fileKey with
  | .error e =>
    ([.initWasm, .healthCheck, .createBucket, .verifyBucket, .waitBackendBucket,
      .upload, .waitMSPConfirm, .waitBackendFile], some e)
  | .ok _fileInfo =>
  match env.downloadResult fileKey with
  | .error e =>
    ([.initWasm, .healthCheck, .createBucket, .verifyBucket, .waitBackendBucket,
      .upload, .waitMSPConfirm, .waitBackendFile, .download], some e)
  | .ok (_downloadedPath, _size) =>
  match env.verifyResult "./files/datahaven.png" "./files/datahaven_downloaded.png" with
  | .error e =>
    ([.initWasm, .healthCheck, .createBucket, .verifyBucket, .waitBackendBucket,
      .upload, .waitMSPConfirm, .waitBackendFile, .download, .verifyIntegrity], some e)
  | .ok _isValid =>
  match env.disconnectResult with
  | .error e => (fullTrace, some e)
  | .ok _ => (fullTrace, none)

/-- Every awaited call of a run environment succeeds, whatever data
flows into it. -/
def RunEnv.allOk (env : RunEnv) : Prop :=
  (∃ a, env.initWasmResult = .ok a) ∧
  (∃ a, env.healthResult = .ok a) ∧
  (∃ a, env.createBucketResult = .ok a) ∧
  (∀ b, ∃ a, env.verifyBucketResult b = .ok a) ∧
  (∀ b, ∃ a, env.waitBucketResult b = .ok a) ∧
  (∀ b, ∃ a, env.uploadResult b = .ok a) ∧
  (∀ k, ∃ a, env.mspConfirmResult k = .ok a) ∧
  (∀ b k, ∃ a, env.backendFileResult b k = .ok a) ∧
  (∀ k, ∃ a, env.downloadResult k = .ok a) ∧
  (∀ p q, ∃ a, env.verifyResult p q = .ok a) ∧
  (∃ a, env.disconnectResult = .ok a)

/-! ## Concrete test environments

Closed inputs used to instantiate the theorems below on concrete runs. -/

/-- An upload environment in which every external call succeeds but the
storage request the chain returns at verification time carries a bucket
id and fingerprint different from the ones submitted. -/
def envC1 : UploadEnv :=
  { fileSize := 7
    fingerprint := "0xfp"
    mspId := "0xmsp"
    multiaddresses := some ["/ip4/1.2.3.4/tcp/30333/p2p/QmAbc"]
    txHash := some "0xtx"
    receiptStatus := "success"
    accountAddress := "0xacct"
    computeFileKey := fun owner bucket name => owner ++ ":" ++ bucket ++ ":" ++ name
    storageRequests := fun _ => some ⟨"0xother-bucket", "0xother-fingerprint", none⟩
    authResult := .ok "profile"
    uploadStatus := "upload_successful" }

/-- The same upload environment, except the chain has no record for any
file key at verification time. -/
def envC1absent : UploadEnv :=
  { envC1 with storageRequests := fun _ => none }

/-- An upload environment whose only multiaddress carries no peer-id
segment, and whose storage-request transaction returns no hash, so that
evaluation shows which of the two guards fires first. -/
def envC2 : UploadEnv :=
  { envC1 with
    multiaddresses := some ["/ip4/192.168.1.7/tcp/30333"]
    txHash := none }

/-- A run environment in which every awaited step succeeds. -/
def envAllOk : RunEnv :=
  { initWasmResult := .ok ()
    healthResult := .ok "Healthy"
    createBucketResult := .ok ("0xbucket", "receipt")
    verifyBucketResult := fun _ => .ok "bucketData"
    waitBucketResult := fun _ => .ok ()
    uploadResult := fun _ => .ok ("0xfilekey", "upload_successful")
    mspConfirmResult := fun _ => .ok ()
    backendFileResult := fun _ _ => .ok ⟨"ready"⟩
    downloadResult := fun _ => .ok ("./files/datahaven_downloaded.png", 10)
    verifyResult := fun _ _ => .ok true
    disconnectResult := .ok () }

/-- A run environment identical to the all-successful one except that
the upload step fails. -/
def envC8uploadFails : RunEnv :=
  { envAllOk with uploadResult := fun _ => .error (.msg "upload failed") }

/-- A chain that returns an unconfirmed storage request on the first
attempt and then no record at all. -/
def chainC5 : Nat → Option StorageRequestData :=
  fun i => if i = 0 then some ⟨"0xb", "0xf", some ("0xmsp", false)⟩ else none

/-- A chain whose storage request exists but has no assigned provider on
the first attempt, then shows the provider's confirmation. -/
def chainC9 : Nat → Option StorageRequestData :=
  fun i => if i = 0 then some ⟨"0xb", "0xf", none⟩
           else some ⟨"0xb", "0xf", some ("0xmsp", true)⟩

/-- A backend that reports pending once and then a revoked status. -/
def backendC3 : Nat → BackendResp :=
  fun i => if i = 0 then .ok ⟨"pending"⟩ else .ok ⟨"revoked"⟩

/-- A backend that perpetually reports pending. -/
def backendC4 : Nat → BackendResp :=
  fun _ => .ok ⟨"pending"⟩

/-- A backend whose first query fails with a 404 and whose second query
fails with a 500. -/
def backendC6 : Nat → BackendResp :=
  fun i => if i = 0 then .err ⟨some 404, none⟩ else .err ⟨some 500, none⟩

/-! # Theorems -/

/-! ## Helper lemmas about the polling loops -/

theorem fileReadyLoop_step_continue (backend : Nat → BackendResp) (d i slept fuel : Nat)
    (h : continues (backend i) = true) :
    fileReadyLoop backend d i slept (fuel + 1) =
      fileReadyLoop backend d (i + 1) (slept + d) fuel := by
  cases hb : backend i with
  | ok fileInfo =>
    rw [hb] at h
    simp only [continues] at h
    simp only [fileReadyLoop, hb]
    split_ifs at h ⊢
    all_goals simp_all
  | err e =>
    rw [hb] at h
    simp only [continues] at h
    simp only [fileReadyLoop, hb]
    split_ifs at h ⊢
    all_goals simp_all

theorem fileReadyLoop_skip (backend : Nat → BackendResp) (d : Nat) (k : Nat) :
    ∀ (i slept fuel : Nat), k ≤ fuel →
      (∀ j, j < k → continues (backend (i + j)) = true) →
      fileReadyLoop backend d i slept fuel =
        fileReadyLoop backend d (i + k) (slept + k * d) (fuel - k) := by
  induction k with
  | zero => intro i slept fuel _ _; simp
  | succ k ih =>
    intro i slept fuel hk h
    obtain ⟨f, rfl⟩ : ∃ f, fuel = f + 1 := ⟨fuel - 1, by omega⟩
    have h0 : continues (backend i) = true := by
      simpa using h 0 (Nat.succ_pos k)
    rw [fileReadyLoop_step_continue backend d i slept f h0]
    have hrest : ∀ j, j < k → continues (backend (i + 1 + j)) = true := by
      intro j hj
      have h2 := h (j + 1) (by omega)
      have e : i + (j + 1) = i + 1 + j := by omega
      rwa [e] at h2
    rw [ih (i + 1) (slept + d) f (by omega) hrest]
    have e1 : i + 1 + k = i + (k + 1) := by omega
    have e2 : slept + d + k * d = slept + (k + 1) * d := by ring
    have e3 : f - k = f + 1 - (k + 1) := by omega
    rw [e1, e2, e3]

theorem fileReadyLoop_attempts_le (backend : Nat → BackendResp) (d : Nat) :
    ∀ (fuel i slept : Nat), (fileReadyLoop backend d i slept fuel).attempts ≤ i + fuel := by
  intro fuel
  induction fuel with
  | zero => intro i slept; simp [fileReadyLoop]
  | succ f ih =>
    intro i slept
    cases hb : backend i with
    | ok fileInfo =>
      simp only [fileReadyLoop, hb]
      split_ifs
      · simp
      · simp
      · simp
      · simp
      · have := ih (i + 1) (slept + d)
        omega
    | err e =>
      simp only [fileReadyLoop, hb]
      split_ifs
      · have := ih (i + 1) (slept + d)
        omega
      · simp

theorem fileReadyLoop_ok_ready (backend : Nat → BackendResp) (d : Nat) :
    ∀ (fuel i slept : Nat) (fileInfo : FileInfo),
      (fileReadyLoop backend d i slept fuel).result = Except.ok fileInfo →
      fileInfo.status = "ready" := by
  intro fuel
  induction fuel with
  | zero => intro i slept fileInfo h; simp [fileReadyLoop] at h
  | succ f ih =>
    intro i slept fileInfo h
    cases hb : backend i with
    | ok info =>
      simp only [fileReadyLoop, hb] at h
      split_ifs at h with h1 h2 h3 h4
      · simp only [Except.ok.injEq] at h
        rw [← h]
        exact h1
      · exact ih (i + 1) (slept + d) fileInfo h
    | err e =>
      simp only [fileReadyLoop, hb] at h
      split_ifs at h
      · exact ih (i + 1) (slept + d) fileInfo h

theorem transientOk_continues (r : BackendResp) (h : transientOk r = true) :
    continues r = true := by
  cases r with
  | ok fileInfo =>
    simp only [transientOk] at h
    simp only [continues]
    exact h
  | err e => simp [transientOk] at h

theorem mspConfirmLoop_step_continue (chain : Nat → Option StorageRequestData)
    (fileKey : String) (i slept fuel : Nat)
    (h : presentUnconfirmed (chain i) = true) :
    mspConfirmLoop chain fileKey i slept (fuel + 1) =
      mspConfirmLoop chain fileKey (i + 1) (slept + 2000) fuel := by
  cases hc : chain i with
  | none => rw [hc] at h; simp [presentUnconfirmed] at h
  | some data =>
    rw [hc] at h
    simp only [presentUnconfirmed, Bool.not_eq_true'] at h
    simp only [mspConfirmLoop, hc, h]
    simp

theorem mspConfirmLoop_skip (chain : Nat → Option StorageRequestData)
    (fileKey : String) (k : Nat) :
    ∀ (i slept fuel : Nat), k ≤ fuel →
      (∀ j, j < k → presentUnconfirmed (chain (i + j)) = true) →
      mspConfirmLoop chain fileKey i slept fuel =
        mspConfirmLoop chain fileKey (i + k) (slept + k * 2000) (fuel - k) := by
  induction k with
  | zero => intro i slept fuel _ _; simp
  | succ k ih =>
    intro i slept fuel hk h
    obtain ⟨f, rfl⟩ : ∃ f, fuel = f + 1 := ⟨fuel - 1, by omega⟩
    have h0 : presentUnconfirmed (chain i) = true := by
      simpa using h 0 (Nat.succ_pos k)
    rw [mspConfirmLoop_step_continue chain fileKey i slept f h0]
    have hrest : ∀ j, j < k → presentUnconfirmed (chain (i + 1 + j)) = true := by
      intro j hj
      have h2 := h (j + 1) (by omega)
      have e : i + (j + 1) = i + 1 + j := by omega
      rwa [e] at h2
    rw [ih (i + 1) (slept + 2000) f (by omega) hrest]
    have e1 : i + 1 + k = i + (k + 1) := by omega
    have e2 : slept + 2000 + k * 2000 = slept + (k + 1) * 2000 := by ring
    have e3 : f - k = f + 1 - (k + 1) := by omega
    rw [e1, e2, e3]

theorem goneMsg_ne_mspTimeoutMsg (fileKey : String) :
    goneMsg fileKey ≠ mspTimeoutMsg fileKey := by
  intro h
  have hS : (goneMsg fileKey).data.head? = some 'S' := rfl
  rw [h] at hS
  have hF : (mspTimeoutMsg fileKey).data.head? = some 'F' := rfl
  rw [hF] at hS
  exact absurd hS (by decide)

/-! ## Claim theorems -/

/-- Claim C7: for every pair of file paths, verifyDownload returns true
exactly when the two files' contents are byte-for-byte identical — in
particular it returns true when both files are empty and false when they
differ only in a single trailing byte — and it reports the result as a
Boolean value rather than raising an error. -/
theorem verifyDownload_true_iff_identical (fs : String → List Nat)
    (originalPath downloadedPath : String) :
    (verifyDownload fs originalPath downloadedPath = true ↔
       fs originalPath = fs downloadedPath) ∧
    (fs originalPath = [] → fs downloadedPath = [] →
       verifyDownload fs originalPath downloadedPath = true) ∧
    (∀ (l : List Nat) (b c : Nat), b ≠ c →
       fs originalPath = l ++ [b] → fs downloadedPath = l ++ [c] →
       verifyDownload fs originalPath downloadedPath = false) := by
  refine ⟨?_, ?_, ?_⟩
  · simp [verifyDownload]
  · intro h1 h2
    simp [verifyDownload, h1, h2]
  · intro l b c hbc h1 h2
    simp only [verifyDownload, h1, h2, beq_eq_false_iff_ne, ne_eq,
      List.append_cancel_left_eq, List.cons.injEq, and_true]
    exact hbc

/-- Claim C7 witness: two files differing only in their trailing byte
compare unequal. -/
theorem verifyDownload_true_iff_identical_witness :
    verifyDownload (fun path => if path = "a.png" then [9, 1] else [9, 2])
      "a.png" "b.png" = false :=
  (verifyDownload_true_iff_identical _ "a.png" "b.png").2.2 [9] 1 2
    (by decide) (by decide) (by decide)

/-- Claim C3: the first backend response whose status is revoked,
rejected or expired makes waitForBackendFileReady stop at once — after
exactly the attempts taken so far, with no further sleep — with the
non-retryable error message belonging to that status, and the three
messages (cancelled by user, rejected by MSP, replication deadline
missed) are pairwise distinct and distinct from the timeout message. -/
theorem backendFileReady_stops_on_terminal_status (backend : Nat → BackendResp)
    (n : Nat) (fileInfo : FileInfo) (hn : n < 144)
    (hpre : ∀ j, j < n → continues (backend j) = true)
    (hq : backend n = .ok fileInfo)
    (hst : fileInfo.status = "revoked" ∨ fileInfo.status = "rejected" ∨
           fileInfo.status = "expired") :
    waitForBackendFileReady backend =
      ⟨.error (.msg (terminalNegativeMsg fileInfo.status)), n + 1, n * 5000⟩ ∧
    terminalNegativeMsg "revoked" ≠ terminalNegativeMsg "rejected" ∧
    terminalNegativeMsg "revoked" ≠ terminalNegativeMsg "expired" ∧
    terminalNegativeMsg "rejected" ≠ terminalNegativeMsg "expired" ∧
    terminalNegativeMsg "revoked" ≠ "Timed out waiting for MSP backend to mark file as ready" ∧
    terminalNegativeMsg "rejected" ≠ "Timed out waiting for MSP backend to mark file as ready" ∧
    terminalNegativeMsg "expired" ≠ "Timed out waiting for MSP backend to mark file as ready" := by
  refine ⟨?_, by decide, by decide, by decide, by decide, by decide, by decide⟩
  unfold waitForBackendFileReady
  rw [fileReadyLoop_skip backend 5000 n 0 0 144 (by omega)
    (fun j hj => by simpa using hpre j hj)]
  obtain ⟨f, hf⟩ : ∃ f, 144 - n = f + 1 := ⟨143 - n, by omega⟩
  rw [hf]
  simp only [fileReadyLoop, Nat.zero_add, hq]
  rcases hst with h | h | h
  all_goals rw [h]
  all_goals simp [terminalNegativeMsg]

/-- Claim C3 witness: a pending response followed by a revoked response
stops the loop at the second attempt with the cancelled-by-user error. -/
theorem backendFileReady_stops_on_terminal_status_witness :
    waitForBackendFileReady backendC3 =
      ⟨.error (.msg "File upload was cancelled by user"), 2, 5000⟩ :=
  (backendFileReady_stops_on_terminal_status backendC3 1 ⟨"revoked"⟩ (by omega)
    (fun j hj => by
      have hj0 : j = 0 := by omega
      rw [hj0]
      rfl)
    rfl (Or.inl rfl)).1

/-- Claim C4: when every backend query returns a transient status (such
as pending), waitForBackendFileReady performs exactly 144 attempts,
sleeping a fixed 5000 ms after each, and then raises the timeout error;
on any backend it never performs more than 144 attempts; and it only
ever succeeds with a record whose status is ready. -/
theorem backendFileReady_timeout_after_cap (backend : Nat → BackendResp) :
    ((∀ i, i < 144 → transientOk (backend i) = true) →
       waitForBackendFileReady backend =
         ⟨.error (.msg "Timed out waiting for MSP backend to mark file as ready"),
          144, 144 * 5000⟩) ∧
    (waitForBackendFileReady backend).attempts ≤ 144 ∧
    (∀ fileInfo, (waitForBackendFileReady backend).result = Except.ok fileInfo →
       fileInfo.status = "ready") := by
  refine ⟨?_, ?_, ?_⟩
  · intro h
    unfold waitForBackendFileReady
    rw [fileReadyLoop_skip backend 5000 144 0 0 144 (le_refl 144)
      (fun j hj => transientOk_continues _ (by simpa using h j hj))]
    simp [fileReadyLoop]
  · exact fileReadyLoop_attempts_le backend 5000 144 0 0
  · exact fun fileInfo h => fileReadyLoop_ok_ready backend 5000 144 0 0 fileInfo h

/-- Claim C4 witness: a perpetually pending backend times out after
exactly 144 attempts and 720000 ms of waiting. -/
theorem backendFileReady_timeout_after_cap_witness :
    waitForBackendFileReady backendC4 =
      ⟨.error (.msg "Timed out waiting for MSP backend to mark file as ready"),
       144, 720000⟩ :=
  (backendFileReady_timeout_after_cap backendC4).1 (fun _ _ => rfl)

/-- Claim C6: inside waitForBackendFileReady, a query failure whose
status is 404 or whose body reports the record as not found is treated
as not-yet-indexed — the loop sleeps the fixed 5000 ms and resumes
polling from the next attempt — while any other query failure aborts the
loop immediately by propagating that very error. -/
theorem backendFileReady_404_retried_other_errors_propagate
    (backend : Nat → BackendResp) (n : Nat) (e : QueryError) (hn : n < 144)
    (hpre : ∀ j, j < n → continues (backend j) = true)
    (hq : backend n = .err e) :
    ((e.status = some 404 ∨ e.bodyError = some "Not found: Record") →
       waitForBackendFileReady backend =
         fileReadyLoop backend 5000 (n + 1) ((n + 1) * 5000) (143 - n)) ∧
    (¬(e.status = some 404 ∨ e.bodyError = some "Not found: Record") →
       waitForBackendFileReady backend = ⟨.error (.query e), n + 1, n * 5000⟩) := by
  constructor
  · intro h404
    unfold waitForBackendFileReady
    rw [fileReadyLoop_skip backend 5000 n 0 0 144 (by omega)
      (fun j hj => by simpa using hpre j hj)]
    simp only [Nat.zero_add]
    obtain ⟨f, hf⟩ : ∃ f, 144 - n = f + 1 := ⟨143 - n, by omega⟩
    rw [hf]
    have hcont : continues (backend n) = true := by
      rw [hq]
      simp only [continues]
      simp [h404]
    rw [fileReadyLoop_step_continue backend 5000 n (n * 5000) f hcont]
    have e2 : n * 5000 + 5000 = (n + 1) * 5000 := by ring
    have e3 : f = 143 - n := by omega
    rw [e2, e3]
  · intro hother
    unfold waitForBackendFileReady
    rw [fileReadyLoop_skip backend 5000 n 0 0 144 (by omega)
      (fun j hj => by simpa using hpre j hj)]
    simp only [Nat.zero_add]
    obtain ⟨f, hf⟩ : ∃ f, 144 - n = f + 1 := ⟨143 - n, by omega⟩
    rw [hf]
    simp only [fileReadyLoop, hq]
    rw [if_neg hother]

/-- Claim C6 witness: a first query failing with 404 is retried, and a
second query failing with status 500 aborts the loop at that attempt,
propagating the 500 error itself. -/
theorem backendFileReady_404_retried_witness :
    waitForBackendFileReady backendC6 =
      ⟨.error (.query ⟨some 500, none⟩), 2, 5000⟩ :=
  (backendFileReady_404_retried_other_errors_propagate backendC6 1 ⟨some 500, none⟩
    (by omega)
    (fun j hj => by
      have hj0 : j = 0 := by omega
      rw [hj0]
      rfl)
    rfl).2 (by simp)

/-- Claim C5: waitForMSPConfirmOnChain raises the request-disappeared
error — which is not the timeout error — at the very attempt on which
the storage request is absent, without consuming the remaining budget;
it succeeds at the first attempt whose chain record carries the
provider's confirmation flag true; and when the record stays present and
unconfirmed for all attempts, it raises the timeout error after exactly
10 attempts with a fixed 2000 ms sleep after each. -/
theorem mspConfirm_gone_confirmed_timeout (chain : Nat → Option StorageRequestData)
    (fileKey : String) (n : Nat) (hn : n < 10)
    (hpre : ∀ j, j < n → presentUnconfirmed (chain j) = true) :
    (chain n = none →
       waitForMSPConfirmOnChain chain fileKey =
         ⟨.error (.msg (goneMsg fileKey)), n + 1, n * 2000⟩ ∧
       goneMsg fileKey ≠ mspTimeoutMsg fileKey) ∧
    (∀ data, chain n = some data → mspConfirmedOf data = true →
       waitForMSPConfirmOnChain chain fileKey = ⟨.ok (), n + 1, n * 2000⟩) ∧
    ((∀ j, j < 10 → presentUnconfirmed (chain j) = true) →
       waitForMSPConfirmOnChain chain fileKey =
         ⟨.error (.msg (mspTimeoutMsg fileKey)), 10, 10 * 2000⟩) := by
  refine ⟨?_, ?_, ?_⟩
  · intro hnone
    refine ⟨?_, goneMsg_ne_mspTimeoutMsg fileKey⟩
    unfold waitForMSPConfirmOnChain
    rw [mspConfirmLoop_skip chain fileKey n 0 0 10 (by omega)
      (fun j hj => by simpa using hpre j hj)]
    simp only [Nat.zero_add]
    obtain ⟨f, hf⟩ : ∃ f, 10 - n = f + 1 := ⟨9 - n, by omega⟩
    rw [hf]
    simp only [mspConfirmLoop, hnone]
  · intro data hsome hconf
    unfold waitForMSPConfirmOnChain
    rw [mspConfirmLoop_skip chain fileKey n 0 0 10 (by omega)
      (fun j hj => by simpa using hpre j hj)]
    simp only [Nat.zero_add]
    obtain ⟨f, hf⟩ : ∃ f, 10 - n = f + 1 := ⟨9 - n, by omega⟩
    rw [hf]
    simp only [mspConfirmLoop, hsome, hconf]
    simp
  · intro hall
    unfold waitForMSPConfirmOnChain
    rw [mspConfirmLoop_skip chain fileKey 10 0 0 10 (le_refl 10)
      (fun j hj => by simpa using hall j hj)]
    simp [mspConfirmLoop]

/-- Claim C5 witness: a chain that shows an unconfirmed request once and
then no record at all makes the loop raise the request-disappeared error
on the second attempt, after a single 2000 ms sleep. -/
theorem mspConfirm_gone_witness :
    waitForMSPConfirmOnChain chainC5 "0xkey" =
      ⟨.error (.msg (goneMsg "0xkey")), 2, 2000⟩ ∧
    goneMsg "0xkey" ≠ mspTimeoutMsg "0xkey" :=
  (mspConfirm_gone_confirmed_timeout chainC5 "0xkey" 1 (by omega)
    (fun j hj => by
      have hj0 : j = 0 := by omega
      rw [hj0]
      rfl)).1 rfl

/-- Claim C9: an attempt of waitForMSPConfirmOnChain on which the
storage request exists but carries no assigned provider is classified as
not confirmed — the confirmation flag computes to false, no error is
raised, and the loop sleeps and resumes polling from the next attempt
toward the cap. -/
theorem mspConfirm_unassigned_provider_continues
    (chain : Nat → Option StorageRequestData) (fileKey : String) (n : Nat)
    (hn : n < 10)
    (hpre : ∀ j, j < n → presentUnconfirmed (chain j) = true)
    (data : StorageRequestData) (hsome : chain n = some data)
    (hmsp : data.msp = none) :
    mspConfirmedOf data = false ∧
    waitForMSPConfirmOnChain chain fileKey =
      mspConfirmLoop chain fileKey (n + 1) ((n + 1) * 2000) (9 - n) := by
  have hconf : mspConfirmedOf data = false := by simp [mspConfirmedOf, hmsp]
  refine ⟨hconf, ?_⟩
  unfold waitForMSPConfirmOnChain
  rw [mspConfirmLoop_skip chain fileKey n 0 0 10 (by omega)
    (fun j hj => by simpa using hpre j hj)]
  simp only [Nat.zero_add]
  obtain ⟨f, hf⟩ : ∃ f, 10 - n = f + 1 := ⟨9 - n, by omega⟩
  rw [hf]
  rw [mspConfirmLoop_step_continue chain fileKey n (n * 2000) f
    (by simp [presentUnconfirmed, hsome, hconf])]
  have e2 : n * 2000 + 2000 = (n + 1) * 2000 := by ring
  have e3 : f = 9 - n := by omega
  rw [e2, e3]

/-- Claim C9 witness: a chain whose first attempt shows the request with
no assigned provider makes the loop poll on from the second attempt
(2000 ms slept, nine attempts of budget left), rather than fail. -/
theorem mspConfirm_unassigned_provider_witness :
    mspConfirmedOf ⟨"0xb", "0xf", none⟩ = false ∧
    waitForMSPConfirmOnChain chainC9 "0xkey" =
      mspConfirmLoop chainC9 "0xkey" 1 2000 9 :=
  mspConfirm_unassigned_provider_continues chainC9 "0xkey" 0 (by omega)
    (fun j hj => absurd hj (by omega)) ⟨"0xb", "0xf", none⟩ rfl rfl

/-- Claim C1 counterexample: with the chain returning, at verification
time, a storage request whose bucket id and fingerprint both differ from
the submitted ones, uploadFile nevertheless completes successfully — the
mismatching comparisons are merely recorded (both false) — instead of
raising a hard error. -/
theorem uploadFile_mismatch_not_fatal :
    envC1.storageRequests
        (envC1.computeFileKey envC1.accountAddress "0xbucket" "datahaven.png") =
      some ⟨"0xother-bucket", "0xother-fingerprint", none⟩ ∧
    ("0xother-bucket" == "0xbucket") = false ∧
    ("0xother-fingerprint" == envC1.fingerprint) = false ∧
    uploadFile envC1 "0xbucket" "datahaven.png" =
      .ok ⟨"0xacct:0xbucket:datahaven.png", "upload_successful", false, false⟩ :=
  ⟨rfl, rfl, rfl, rfl⟩

/-- Claim C1 (amended): after the storage-request transaction confirms,
uploadFile re-reads chain state keyed by the derived file key and fails
with a hard error when the record is absent; when a record is present,
its bucket id and fingerprint are compared against the submitted values
for logging only — whatever the outcome of those comparisons, uploadFile
proceeds and completes. -/
theorem uploadFile_absent_fatal_mismatch_logged (env : UploadEnv)
    (bucketId fileName : String) (mas : List String) (tx profile : String)
    (hmas : env.multiaddresses = some mas) (hlen : mas.length ≠ 0)
    (hpeers : (extractPeerIDs mas).length ≠ 0)
    (htx : env.txHash = some tx) (hrec : env.receiptStatus = "success")
    (hauth : env.authResult = .ok profile)
    (hup : env.uploadStatus = "upload_successful") :
    (env.storageRequests (env.computeFileKey env.accountAddress bucketId fileName) = none →
       uploadFile env bucketId fileName =
         .error (.msg "Storage request not found on chain")) ∧
    (∀ data,
       env.storageRequests (env.computeFileKey env.accountAddress bucketId fileName) =
         some data →
       uploadFile env bucketId fileName =
         .ok ⟨env.computeFileKey env.accountAddress bucketId fileName,
              "upload_successful", data.bucketId == bucketId,
              data.fingerprint == env.fingerprint⟩) := by
  constructor
  · intro habsent
    simp [uploadFile, hmas, hlen, hpeers, htx, hrec, hauth, hup, habsent]
  · intro data hsome
    simp [uploadFile, hmas, hlen, hpeers, htx, hrec, hauth, hup, hsome]

/-- Claim C1 witness: with the chain record absent at verification time
and every earlier step successful, uploadFile raises exactly the
not-found-on-chain error. -/
theorem uploadFile_absent_fatal_witness :
    uploadFile envC1absent "0xbucket" "datahaven.png" =
      .error (.msg "Storage request not found on chain") :=
  (uploadFile_absent_fatal_mismatch_logged envC1absent "0xbucket" "datahaven.png"
    ["/ip4/1.2.3.4/tcp/30333/p2p/QmAbc"] "0xtx" "profile" rfl (by decide) (by decide)
    rfl rfl rfl rfl).1 rfl

/-- Claim C2: behavior of the peer-id extraction at an address carrying
no peer-id segment.  The address has no such segment, yet extractPeerIDs
keeps the whole address as a peer id, so the surrounding guard in
uploadFile does not raise the no-peer-ID error: evaluation proceeds past
both multiaddress checks and stops only at the next step (here, the
missing transaction hash). -/
theorem extractPeerIDs_keeps_address_without_segment :
    hasP2PSegment "/ip4/192.168.1.7/tcp/30333" = false ∧
    extractPeerIDs ["/ip4/192.168.1.7/tcp/30333"] = ["/ip4/192.168.1.7/tcp/30333"] ∧
    uploadFile envC2 "0xbucket" "datahaven.png" =
      .error (.msg "issueStorageRequest() did not return a transaction hash") :=
  ⟨rfl, rfl, rfl⟩

/-- Claim C8: the orchestrator awaits health check, create bucket,
verify bucket on-chain, backend bucket wait, upload, on-chain MSP
confirmation wait, backend file wait, download, integrity verification
and chain-client disconnect strictly in this order (preceded by the
script's WASM initialization): the executed-step trace is always a
prefix of this sequence; an error-free run has executed all of it; an
environment in which every awaited call succeeds yields exactly the full
sequence with no error; and when any step fails (its predecessors having
succeeded) the run stops with the trace cut off at that very step, so no
later step executes. -/
theorem run_executes_steps_in_order (env : RunEnv) :
    (∃ n, (run env).1 = fullTrace.take n) ∧
    ((run env).2 = none → (run env).1 = fullTrace) ∧
    (env.allOk → run env = (fullTrace, none)) ∧
    (∀ e, env.initWasmResult = .error e →
       run env = (fullTrace.take 1, some e)) ∧
    (∀ e, (∃ a, env.initWasmResult = .ok a) →
       env.healthResult = .error e →
       run env = (fullTrace.take 2, some e)) ∧
    (∀ e, (∃ a, env.initWasmResult = .ok a) →
       (∃ a, env.healthResult = .ok a) →
       env.createBucketResult = .error e →
       run env = (fullTrace.take 3, some e)) ∧
    (∀ e bId tx, (∃ a, env.initWasmResult = .ok a) →
       (∃ a, env.healthResult = .ok a) →
       env.createBucketResult = .ok (bId, tx) →
       env.verifyBucketResult bId = .error e →
       run env = (fullTrace.take 4, some e)) ∧
    (∀ e bId tx, (∃ a, env.initWasmResult = .ok a) →
       (∃ a, env.healthResult = .ok a) →
       env.createBucketResult = .ok (bId, tx) →
       (∃ a, env.verifyBucketResult bId = .ok a) →
       env.waitBucketResult bId = .error e →
       run env = (fullTrace.take 5, some e)) ∧
    (∀ e bId tx, (∃ a, env.initWasmResult = .ok a) →
       (∃ a, env.healthResult = .ok a) →
       env.createBucketResult = .ok (bId, tx) →
       (∃ a, env.verifyBucketResult bId = .ok a) →
       (∃ a, env.waitBucketResult bId = .ok a) →
       env.uploadResult bId = .error e →
       run env = (fullTrace.take 6, some e)) ∧
    (∀ e bId tx fk us, (∃ a, env.initWasmResult = .ok a) →
       (∃ a, env.healthResult = .ok a) →
       env.createBucketResult = .ok (bId, tx) →
       (∃ a, env.verifyBucketResult bId = .ok a) →
       (∃ a, env.waitBucketResult bId = .ok a) →
       env.uploadResult bId = .ok (fk, us) →
       env.mspConfirmResult fk = .error e →
       run env = (fullTrace.take 7, some e)) ∧
    (∀ e bId tx fk us, (∃ a, env.initWasmResult = .ok a) →
       (∃ a, env.healthResult = .ok a) →
       env.createBucketResult = .ok (bId, tx) →
       (∃ a, env.verifyBucketResult bId = .ok a) →
       (∃ a, env.waitBucketResult bId = .ok a) →
       env.uploadResult bId = .ok (fk, us) →
       (∃ a, env.mspConfirmResult fk = .ok a) →
       env.backendFileResult bId fk = .error e →
       run env = (fullTrace.take 8, some e)) ∧
    (∀ e bId tx fk us, (∃ a, env.initWasmResult = .ok a) →
       (∃ a, env.healthResult = .ok a) →
       env.createBucketResult = .ok (bId, tx) →
       (∃ a, env.verifyBucketResult bId = .ok a) →
       (∃ a, env.waitBucketResult bId = .ok a) →
       env.uploadResult bId = .ok (fk, us) →
       (∃ a, env.mspConfirmResult fk = .ok a) →
       (∃ a, env.backendFileResult bId fk = .ok a) →
       env.downloadResult fk = .error e →
       run env = (fullTrace.take 9, some e)) ∧
    (∀ e bId tx fk us, (∃ a, env.initWasmResult = .ok a) →
       (∃ a, env.healthResult = .ok a) →
       env.createBucketResult = .ok (bId, tx) →
       (∃ a, env.verifyBucketResult bId = .ok a) →
       (∃ a, env.waitBucketResult bId = .ok a) →
       env.uploadResult bId = .ok (fk, us) →
       (∃ a, env.mspConfirmResult fk = .ok a) →
       (∃ a, env.backendFileResult bId fk = .ok a) →
       (∃ a, env.downloadResult fk = .ok a) →
       env.verifyResult "./files/datahaven.png" "./files/datahaven_downloaded.png" =
         .error e →
       run env = (fullTrace.take 10, some e)) ∧
    (∀ e bId tx fk us, (∃ a, env.initWasmResult = .ok a) →
       (∃ a, env.healthResult = .ok a) →
       env.createBucketResult = .ok (bId, tx) →
       (∃ a, env.verifyBucketResult bId = .ok a) →
       (∃ a, env.waitBucketResult bId = .ok a) →
       env.uploadResult bId = .ok (fk, us) →
       (∃ a, env.mspConfirmResult fk = .ok a) →
       (∃ a, env.backendFileResult bId fk = .ok a) →
       (∃ a, env.downloadResult fk = .ok a) →
       (∃ a, env.verifyResult "./files/datahaven.png"
          "./files/datahaven_downloaded.png" = .ok a) →
       env.disconnectResult = .error e →
       run env = (fullTrace, some e)) := by
  refine ⟨?_, ?_, ?_, ?_, ?_, ?_, ?_, ?_, ?_, ?_, ?_, ?_, ?_, ?_⟩
  case refine_3 =>
    intro hok
    obtain ⟨⟨a0, h0⟩, ⟨a1, h1⟩, ⟨⟨bId, tx⟩, h2⟩, h3, h4, h5, h6, h7, h8, h9,
      ⟨a10, h10⟩⟩ := hok
    obtain ⟨a3, h3x⟩ := h3 bId
    obtain ⟨a4, h4x⟩ := h4 bId
    obtain ⟨⟨fk, us⟩, h5x⟩ := h5 bId
    obtain ⟨a6, h6x⟩ := h6 fk
    obtain ⟨a7, h7x⟩ := h7 bId fk
    obtain ⟨⟨dp, sz⟩, h8x⟩ := h8 fk
    obtain ⟨a9, h9x⟩ := h9 "./files/datahaven.png" "./files/datahaven_downloaded.png"
    simp [run, h0, h1, h2, h3x, h4x, h5x, h6x, h7x, h8x, h9x, h10]
  case refine_4 =>
    intro e h0
    simp only [run, h0]
    rfl
  case refine_5 =>
    intro e h0 h1
    obtain ⟨a0, h0⟩ := h0
    simp only [run, h0, h1]
    rfl
  case refine_6 =>
    intro e h0 h1 h2
    obtain ⟨a0, h0⟩ := h0
    obtain ⟨a1, h1⟩ := h1
    simp only [run, h0, h1, h2]
    rfl
  case refine_7 =>
    intro e bId tx h0 h1 h2 h3
    obtain ⟨a0, h0⟩ := h0
    obtain ⟨a1, h1⟩ := h1
    simp only [run, h0, h1, h2, h3]
    rfl
  case refine_8 =>
    intro e bId tx h0 h1 h2 h3 h4
    obtain ⟨a0, h0⟩ := h0
    obtain ⟨a1, h1⟩ := h1
    obtain ⟨a3, h3⟩ := h3
    simp only [run, h0, h1, h2, h3, h4]
    rfl
  case refine_9 =>
    intro e bId tx h0 h1 h2 h3 h4 h5
    obtain ⟨a0, h0⟩ := h0
    obtain ⟨a1, h1⟩ := h1
    obtain ⟨a3, h3⟩ := h3
    obtain ⟨a4, h4⟩ := h4
    simp only [run, h0, h1, h2, h3, h4, h5]
    rfl
  case refine_10 =>
    intro e bId tx fk us h0 h1 h2 h3 h4 h5 h6
    obtain ⟨a0, h0⟩ := h0
    obtain ⟨a1, h1⟩ := h1
    obtain ⟨a3, h3⟩ := h3
    obtain ⟨a4, h4⟩ := h4
    simp only [run, h0, h1, h2, h3, h4, h5, h6]
    rfl
  case refine_11 =>
    intro e bId tx fk us h0 h1 h2 h3 h4 h5 h6 h7
    obtain ⟨a0, h0⟩ := h0
    obtain ⟨a1, h1⟩ := h1
    obtain ⟨a3, h3⟩ := h3
    obtain ⟨a4, h4⟩ := h4
    obtain ⟨a6, h6⟩ := h6
    simp only [run, h0, h1, h2, h3, h4, h5, h6, h7]
    rfl
  case refine_12 =>
    intro e bId tx fk us h0 h1 h2 h3 h4 h5 h6 h7 h8
    obtain ⟨a0, h0⟩ := h0
    obtain ⟨a1, h1⟩ := h1
    obtain ⟨a3, h3⟩ := h3
    obtain ⟨a4, h4⟩ := h4
    obtain ⟨a6, h6⟩ := h6
    obtain ⟨a7, h7⟩ := h7
    simp only [run, h0, h1, h2, h3, h4, h5, h6, h7, h8]
    rfl
  case refine_13 =>
    intro e bId tx fk us h0 h1 h2 h3 h4 h5 h6 h7 h8 h9
    obtain ⟨a0, h0⟩ := h0
    obtain ⟨a1, h1⟩ := h1
    obtain ⟨a3, h3⟩ := h3
    obtain ⟨a4, h4⟩ := h4
    obtain ⟨a6, h6⟩ := h6
    obtain ⟨a7, h7⟩ := h7
    obtain ⟨⟨dp, sz⟩, h8⟩ := h8
    simp only [run, h0, h1, h2, h3, h4, h5, h6, h7, h8, h9]
    rfl
  case refine_14 =>
    intro e bId tx fk us h0 h1 h2 h3 h4 h5 h6 h7 h8 h9 h10
    obtain ⟨a0, h0⟩ := h0
    obtain ⟨a1, h1⟩ := h1
    obtain ⟨a3, h3⟩ := h3
    obtain ⟨a4, h4⟩ := h4
    obtain ⟨a6, h6⟩ := h6
    obtain ⟨a7, h7⟩ := h7
    obtain ⟨⟨dp, sz⟩, h8⟩ := h8
    obtain ⟨a9, h9⟩ := h9
    simp only [run, h0, h1, h2, h3, h4, h5, h6, h7, h8, h9, h10]
  all_goals
    rcases h0 : env.initWasmResult with e | a0
    case error =>
      first
      | exact ⟨1, by simp only [run, h0]; rfl⟩
      | intro hn; rw [run, h0] at hn; simp at hn
    rcases h1 : env.healthResult with e | a1
    case error =>
      first
      | exact ⟨2, by simp only [run, h0, h1]; rfl⟩
      | intro hn; rw [run] at hn; rw [h0] at hn; simp [h1] at hn
    rcases h2 : env.createBucketResult with e | p2
    case error =>
      first
      | exact ⟨3, by simp only [run, h0, h1, h2]; rfl⟩
      | intro hn; rw [run] at hn; rw [h0] at hn; simp [h1, h2] at hn
    obtain ⟨bId, tx⟩ := p2
    rcases h3 : env.verifyBucketResult bId with e | a3
    case error =>
      first
      | exact ⟨4, by simp only [run, h0, h1, h2, h3]; rfl⟩
      | intro hn; rw [run] at hn; rw [h0] at hn; simp [h1, h2, h3] at hn
    rcases h4 : env.waitBucketResult bId with e | a4
    case error =>
      first
      | exact ⟨5, by simp only [run, h0, h1, h2, h3, h4]; rfl⟩
      | intro hn; rw [run] at hn; rw [h0] at hn; simp [h1, h2, h3, h4] at hn
    rcases h5 : env.uploadResult bId with e | p5
    case error =>
      first
      | exact ⟨6, by simp only [run, h0, h1, h2, h3, h4, h5]; rfl⟩
      | intro hn; rw [run] at hn; rw [h0] at hn; simp [h1, h2, h3, h4, h5] at hn
    obtain ⟨fk, us⟩ := p5
    rcases h6 : env.mspConfirmResult fk with e | a6
    case error =>
      first
      | exact ⟨7, by simp only [run, h0, h1, h2, h3, h4, h5, h6]; rfl⟩
      | intro hn; rw [run] at hn; rw [h0] at hn; simp [h1, h2, h3, h4, h5, h6] at hn
    rcases h7 : env.backendFileResult bId fk with e | a7
    case error =>
      first
      | exact ⟨8, by simp only [run, h0, h1, h2, h3, h4, h5, h6, h7]; rfl⟩
      | intro hn; rw [run] at hn; rw [h0] at hn
        simp [h1, h2, h3, h4, h5, h6, h7] at hn
    rcases h8 : env.downloadResult fk with e | p8
    case error =>
      first
      | exact ⟨9, by simp only [run, h0, h1, h2, h3, h4, h5, h6, h7, h8]; rfl⟩
      | intro hn; rw [run] at hn; rw [h0] at hn
        simp [h1, h2, h3, h4, h5, h6, h7, h8] at hn
    obtain ⟨dp, sz⟩ := p8
    rcases h9 : env.verifyResult "./files/datahaven.png" "./files/datahaven_downloaded.png"
      with e | a9
    case error =>
      first
      | exact ⟨10, by simp only [run, h0, h1, h2, h3, h4, h5, h6, h7, h8, h9]; rfl⟩
      | intro hn; rw [run] at hn; rw [h0] at hn
        simp [h1, h2, h3, h4, h5, h6, h7, h8, h9] at hn
    rcases h10 : env.disconnectResult with e | a10
    case error =>
      first
      | exact ⟨11, by simp only [run, h0, h1, h2, h3, h4, h5, h6, h7, h8, h9, h10]; rfl⟩
      | intro hn
        simp only [run, h0, h1, h2, h3, h4, h5, h6, h7, h8, h9, h10]
    first
    | exact ⟨11, by simp only [run, h0, h1, h2, h3, h4, h5, h6, h7, h8, h9, h10]; rfl⟩
    | intro hn
      simp only [run, h0, h1, h2, h3, h4, h5, h6, h7, h8, h9, h10]

/-- Claim C8 witness: in a run environment where every awaited step
succeeds the script executes the full step sequence in order with no
error, and in the same environment with a failing upload step the run
stops right after the upload — the confirmation waits, download,
verification and disconnect never execute. -/
theorem run_executes_steps_in_order_witness :
    run envAllOk = (fullTrace, none) ∧
    run envC8uploadFails = (fullTrace.take 6, some (.msg "upload failed")) :=
  ⟨(run_executes_steps_in_order envAllOk).2.2.1
    ⟨⟨(), rfl⟩, ⟨"Healthy", rfl⟩, ⟨("0xbucket", "receipt"), rfl⟩,
     fun _ => ⟨"bucketData", rfl⟩, fun _ => ⟨(), rfl⟩,
     fun _ => ⟨("0xfilekey", "upload_successful"), rfl⟩, fun _ => ⟨(), rfl⟩,
     fun _ _ => ⟨⟨"ready"⟩, rfl⟩,
     fun _ => ⟨("./files/datahaven_downloaded.png", 10), rfl⟩,
     fun _ _ => ⟨true, rfl⟩, ⟨(), rfl⟩⟩,
   (run_executes_steps_in_order envC8uploadFails).2.2.2.2.2.2.2.2.1
     (.msg "upload failed") "0xbucket" "receipt" ⟨(), rfl⟩ ⟨"Healthy", rfl⟩ rfl
     ⟨"bucketData", rfl⟩ ⟨(), rfl⟩ rfl⟩

/-- Claim C10 counterexample: when the SIWE sign-in succeeds but the
subsequent profile fetch fails, authenticateUser as a whole fails — it
never completes successfully — yet the session token has already been
stored, so the session provider thereafter attaches credentials instead
of returning none. -/
theorem sessionProvider_set_despite_failed_auth :
    (authenticateUser (.ok "tok-123") (.error (.msg "profile fetch failed"))
        initialSession).1 = .error (.msg "profile fetch failed") ∧
    sessionProvider "0xaddr"
        (authenticateUser (.ok "tok-123") (.error (.msg "profile fetch failed"))
          initialSession).2 = some ("tok-123", "0xaddr") :=
  ⟨rfl, rfl⟩

/-- Claim C10 (amended): the session provider returns none in the
initial state, before any authentication; none of the other backend
operations (info, health, value propositions) nor a failed SIWE sign-in
changes the session state; once the SIWE sign-in inside authenticateUser
succeeds, the returned token is stored — even when the subsequent
profile fetch fails and authenticateUser itself rejects — and from then
on the provider returns that token paired with the configured account
address; in particular after any successful authenticateUser the
provider returns the SIWE token paired with the address. -/
theorem sessionProvider_none_until_siwe_token_stored (address : String) :
    sessionProvider address initialSession = none ∧
    (∀ r s, (getMspInfo r s).2 = s) ∧
    (∀ r s, (getMspHealth r s).2 = s) ∧
    (∀ v s, (getValueProps v s).2 = s) ∧
    (∀ e p s, (authenticateUser (.error e) p s).2 = s) ∧
    (∀ token p s,
       sessionProvider address (authenticateUser (.ok token) p s).2 =
         some (token, address)) ∧
    (∀ siweResult p s profile, (authenticateUser siweResult p s).1 = .ok profile →
       ∃ token, siweResult = .ok token ∧
         sessionProvider address (authenticateUser siweResult p s).2 =
           some (token, address)) := by
  refine ⟨rfl, fun r s => rfl, fun r s => rfl, ?_, fun e p s => rfl, ?_, ?_⟩
  · intro v s
    unfold getValueProps
    split_ifs
    all_goals rfl
  · intro token p s
    cases p
    all_goals rfl
  · intro siweResult p s profile h
    cases siweResult with
    | error e => exact absurd h (by simp [authenticateUser])
    | ok token =>
      refine ⟨token, rfl, ?_⟩
      cases p
      all_goals rfl

/-- Claim C10 witness: after a fully successful authentication from the
initial state, the session provider returns the SIWE token paired with
the configured address. -/
theorem sessionProvider_none_until_siwe_token_stored_witness :
    ∃ token, (Except.ok "tok-9" : Except RunError String) = .ok token ∧
      sessionProvider "0xaddr2"
          (authenticateUser (.ok "tok-9") (.ok "profile") initialSession).2 =
        some (token, "0xaddr2") :=
  (sessionProvider_none_until_siwe_token_stored "0xaddr2").2.2.2.2.2.2
    (.ok "tok-9") (.ok "profile") initialSession "profile" rfl

end DataHaven
